import Mathlib

/-!
Verification of the Dell K2 dock EC protocol engine
(`src/plugins/dell-k2/fu-dell-k2-ec.c`) against its specification.

Bytes are modelled as `Nat` (values below 256 on the wire), buffers as
`List Nat`.  Numeric protocol constants that live in the missing header
`fu-dell-k2-common.h` are modelled as distinct naturals; no claim below
depends on their concrete values, only on their distinctness (and, for
sub-type codes, on being nonzero, since `sub_type == 0` is the wildcard).
-/

/-- Modelled from the spec: device-type codes from the missing header
`fu-dell-k2-common.h`; concrete values are placeholders, only pairwise
distinctness is used. -/
def DELL_K2_EC_DEV_TYPE_MAIN_EC : Nat := 0

def DELL_K2_EC_DEV_TYPE_PD : Nat := 1

def DELL_K2_EC_DEV_TYPE_USBHUB : Nat := 3

def DELL_K2_EC_DEV_TYPE_MST : Nat := 4

def DELL_K2_EC_DEV_TYPE_TBT : Nat := 5

def DELL_K2_EC_DEV_TYPE_QI : Nat := 6

def DELL_K2_EC_DEV_TYPE_DP_MUX : Nat := 7

def DELL_K2_EC_DEV_TYPE_LAN : Nat := 8

def DELL_K2_EC_DEV_TYPE_FAN : Nat := 9

def DELL_K2_EC_DEV_TYPE_RMM : Nat := 10

def DELL_K2_EC_DEV_TYPE_WTPD : Nat := 11

/-- Modelled from the spec: Thunderbolt sub-type codes from the missing
header; nonzero because `sub_type == 0` means "match any sub-type". -/
def DELL_K2_EC_DEV_TBT_SUBTYPE_TR : Nat := 1

def DELL_K2_EC_DEV_TBT_SUBTYPE_GR : Nat := 2

def DELL_K2_EC_DEV_TBT_SUBTYPE_BR : Nat := 3

/-- Modelled from the spec: the K2-class dock type code recognised by the
plugin. -/
def FU_DELL_K2_BASE_TYPE_K2 : Nat := 7

/-- Modelled from the spec: dock SKU classification codes. -/
def K2_DOCK_SKU_TBT5 : Nat := 3

def K2_DOCK_SKU_TBT4 : Nat := 2

def K2_DOCK_SKU_DPALT : Nat := 1

/-- `struct FuDellK2V2EcAddrMap`: the per-entry addressing tuple of the
dock topology table (`location`, `device_type`, `sub_type`, `arg`,
`instance`; the last is named `inst` here because `instance` is reserved
in Lean). -/
structure FuDellK2V2EcAddrMap where
  location : Nat
  device_type : Nat
  sub_type : Nat
  arg : Nat
  inst : Nat
  deriving Repr, DecidableEq

/-- `struct FuDellK2EcQueryEntry`: addressing tuple plus the 4 raw wire
bytes of the version union (`version_8[0..3]` in wire order). -/
structure FuDellK2EcQueryEntry where
  ec_addr_map : FuDellK2V2EcAddrMap
  version_b0 : Nat
  version_b1 : Nat
  version_b2 : Nat
  version_b3 : Nat
  deriving Repr, DecidableEq

/-- `GUINT32_FROM_BE` applied to the version union: on any host this
interprets the 4 wire bytes big-endian. -/
def guint32_from_be_bytes (e : FuDellK2EcQueryEntry) : Nat :=
  e.version_b0 * 16777216 + e.version_b1 * 65536 + e.version_b2 * 256 + e.version_b3

/-- `FuDellK2DockInfoStructure`: header (`total_devices`, `first_index`,
`last_index`) plus the fixed-capacity 20-entry device table.  `devices`
is the raw wire table; its length is 20 for every wire-complete read. -/
structure FuDellK2DockInfoStructure where
  total_devices : Nat
  first_index : Nat
  last_index : Nat
  devices : List FuDellK2EcQueryEntry
  deriving Repr, DecidableEq

/-- An arbitrary entry standing for the out-of-bounds memory the C loop
would read past `devices[20]`. -/
def oobEntry : FuDellK2EcQueryEntry :=
  { ec_addr_map := { location := 0, device_type := 0, sub_type := 0, arg := 0, inst := 0 }
    version_b0 := 0, version_b1 := 0, version_b2 := 0, version_b3 := 0 }

/-- The match condition of one iteration of the `fu_dell_k2_ec_dev_entry`
loop: the entry survives all three `continue` tests. -/
def devEntryMatch (device_type sub_type inst : Nat) (e : FuDellK2EcQueryEntry) : Bool :=
  e.ec_addr_map.device_type == device_type &&
    (sub_type == 0 || e.ec_addr_map.sub_type == sub_type) &&
    (device_type != DELL_K2_EC_DEV_TYPE_PD || e.ec_addr_map.inst == inst)

/-- The loop body of `fu_dell_k2_ec_dev_entry`, starting at index `i`
with `rem` iterations remaining (`rem = total_devices - i`, so the loop
guard `i < total_devices` is `rem > 0`); returns the list of indices it
reads (`devices[i]`) and the entry found, if any. -/
def fu_dell_k2_ec_dev_entry_go (info : FuDellK2DockInfoStructure)
    (device_type sub_type inst : Nat) : Nat → Nat → List Nat × Option FuDellK2EcQueryEntry
  | _, 0 => ([], none)
  | i, rem + 1 =>
    let e := info.devices.getD i oobEntry
    if devEntryMatch device_type sub_type inst e then
      ([i], some e)
    else
      let k := fu_dell_k2_ec_dev_entry_go info device_type sub_type inst (i + 1) rem
      (i :: k.1, k.2)

/-- The loop of `fu_dell_k2_ec_dev_entry`: `for (i = 0; i < total_devices; i++)`. -/
def fu_dell_k2_ec_dev_entry_loop (info : FuDellK2DockInfoStructure)
    (device_type sub_type inst : Nat) : List Nat × Option FuDellK2EcQueryEntry :=
  fu_dell_k2_ec_dev_entry_go info device_type sub_type inst 0 info.total_devices

/-- `fu_dell_k2_ec_dev_entry`: linear scan of the first `total_devices`
entries of the device table. -/
def fu_dell_k2_ec_dev_entry (info : FuDellK2DockInfoStructure)
    (device_type sub_type inst : Nat) : Option FuDellK2EcQueryEntry :=
  (fu_dell_k2_ec_dev_entry_loop info device_type sub_type inst).2

/-- The set of device-table indices read by one `fu_dell_k2_ec_dev_entry`
call (the loop reads `devices[i]` for every visited `i`). -/
def fu_dell_k2_ec_dev_entry_accesses (info : FuDellK2DockInfoStructure)
    (device_type sub_type inst : Nat) : List Nat :=
  (fu_dell_k2_ec_dev_entry_loop info device_type sub_type inst).1

/-- The error kinds (`FWUPD_ERROR_*`) the embedded operations produce or
inspect.  `signatureInvalid` is the "dock may be booting up" NotReady
condition raised by `fu_dell_k2_ec_dock_info_extract`. -/
inductive FwupdError where
  | notFound
  | signatureInvalid
  | invalidData
  | busy
  | readFailed
  | writeFailed
  deriving Repr, DecidableEq

/-- `fu_dell_k2_ec_get_pd_version`: version of the PD controller entry
matching `(sub_type, instance)`, 0 when absent. -/
def fu_dell_k2_ec_get_pd_version (info : FuDellK2DockInfoStructure)
    (sub_type inst : Nat) : Nat :=
  match fu_dell_k2_ec_dev_entry info DELL_K2_EC_DEV_TYPE_PD sub_type inst with
  | none => 0
  | some e => guint32_from_be_bytes e

/-- `fu_dell_k2_ec_get_ilan_version`: version of the network controller
entry, 0 when absent. -/
def fu_dell_k2_ec_get_ilan_version (info : FuDellK2DockInfoStructure) : Nat :=
  match fu_dell_k2_ec_dev_entry info DELL_K2_EC_DEV_TYPE_LAN 0 0 with
  | none => 0
  | some e => guint32_from_be_bytes e

/-- `fu_dell_k2_ec_get_wtpd_version`: version of the Weltrend PD entry,
0 when absent. -/
def fu_dell_k2_ec_get_wtpd_version (info : FuDellK2DockInfoStructure) : Nat :=
  match fu_dell_k2_ec_dev_entry info DELL_K2_EC_DEV_TYPE_WTPD 0 0 with
  | none => 0
  | some e => guint32_from_be_bytes e

/-- `fu_dell_k2_ec_get_dpmux_version`: version of the DP-mux entry, 0
when absent. -/
def fu_dell_k2_ec_get_dpmux_version (info : FuDellK2DockInfoStructure) : Nat :=
  match fu_dell_k2_ec_dev_entry info DELL_K2_EC_DEV_TYPE_DP_MUX 0 0 with
  | none => 0
  | some e => guint32_from_be_bytes e

/-- `fu_dell_k2_ec_get_rmm_version`: version of the remote-management
entry, 0 when absent. -/
def fu_dell_k2_ec_get_rmm_version (info : FuDellK2DockInfoStructure) : Nat :=
  match fu_dell_k2_ec_dev_entry info DELL_K2_EC_DEV_TYPE_RMM 0 0 with
  | none => 0
  | some e => guint32_from_be_bytes e

/-- `fu_dell_k2_ec_get_ec_version`: version of the main EC entry, 0 when
absent. -/
def fu_dell_k2_ec_get_ec_version (info : FuDellK2DockInfoStructure) : Nat :=
  match fu_dell_k2_ec_dev_entry info DELL_K2_EC_DEV_TYPE_MAIN_EC 0 0 with
  | none => 0
  | some e => guint32_from_be_bytes e

/-- `fu_dell_k2_ec_set_dock_sku`: classifies the dock variant from the
already-fetched topology (Barlow Ridge → TBT5, else Goshen Ridge → TBT4,
else DP-alt), failing for a non-K2 dock type. -/
def fu_dell_k2_ec_set_dock_sku (base_type : Nat)
    (info : FuDellK2DockInfoStructure) : Except FwupdError Nat :=
  if base_type = FU_DELL_K2_BASE_TYPE_K2 then
    if (fu_dell_k2_ec_dev_entry info DELL_K2_EC_DEV_TYPE_TBT
        DELL_K2_EC_DEV_TBT_SUBTYPE_BR 0).isSome then
      Except.ok K2_DOCK_SKU_TBT5
    else if (fu_dell_k2_ec_dev_entry info DELL_K2_EC_DEV_TYPE_TBT
        DELL_K2_EC_DEV_TBT_SUBTYPE_GR 0).isSome then
      Except.ok K2_DOCK_SKU_TBT4
    else
      Except.ok K2_DOCK_SKU_DPALT
  else
    Except.error FwupdError.notFound

/-- `fu_dell_k2_ec_own_dock`: modelled over the outcome of the HID write
(`writeResult = none` for success, `some e` for a failed write with error
kind `e`).  Returns the call result and the new `dock_lock_state`. -/
def fu_dell_k2_ec_own_dock (dock_lock_state : Bool) (lock : Bool)
    (writeResult : Option FwupdError) : Except FwupdError Unit × Bool :=
  match writeResult with
  | some e =>
    if e = FwupdError.notFound then
      (Except.ok (), lock)
    else
      (Except.error e, dock_lock_state)
  | none => (Except.ok (), lock)

/-- `fu_dell_k2_ec_dock_info_extract`, error part: `total_devices == 0`
raises the `FWUPD_ERROR_SIGNATURE_INVALID` "dock may be booting up"
(NotReady) error; otherwise the inventory is logged and the call
succeeds. -/
def fu_dell_k2_ec_dock_info_extract (info : FuDellK2DockInfoStructure) :
    Except FwupdError Unit :=
  if info.total_devices = 0 then
    Except.error FwupdError.signatureInvalid
  else
    Except.ok ()

/-- The device-table indices read by the inventory-logging loop of
`fu_dell_k2_ec_dock_info_extract` (`devices[i]` for every
`i < total_devices`). -/
def fu_dell_k2_ec_dock_info_log_accesses (info : FuDellK2DockInfoStructure) :
    List Nat :=
  List.range info.total_devices

/-- `fu_dell_k2_ec_dock_info_cmd`: the HID read outcome (parameter),
then the extract step on the received table. -/
def fu_dell_k2_ec_dock_info_cmd
    (readRes : Except FwupdError FuDellK2DockInfoStructure) :
    Except FwupdError FuDellK2DockInfoStructure :=
  match readRes with
  | Except.error e => Except.error e
  | Except.ok info =>
    match fu_dell_k2_ec_dock_info_extract info with
    | Except.error e => Except.error e
    | Except.ok _ => Except.ok info

/-- One discovery attempt's transport outcomes: the dock-data query
result and the dock-info (topology) read result. -/
structure AttemptEnv where
  dock_data : Except FwupdError Unit
  dock_info_read : Except FwupdError FuDellK2DockInfoStructure

/-- `fu_dell_k2_ec_query_cb`: dock data, then dock info, then SKU
derivation, as one unit; the first error aborts the attempt. -/
def fu_dell_k2_ec_query_cb (base_type : Nat) (env : AttemptEnv) :
    Except FwupdError FuDellK2DockInfoStructure :=
  match env.dock_data with
  | Except.error e => Except.error e
  | Except.ok _ =>
    match fu_dell_k2_ec_dock_info_cmd env.dock_info_read with
    | Except.error e => Except.error e
    | Except.ok info =>
      match fu_dell_k2_ec_set_dock_sku base_type info with
      | Except.error e => Except.error e
      | Except.ok _ => Except.ok info

/-- Result of a bounded retry loop: the final result, the number of
attempts actually made, and the inter-attempt sleeps (in ms). -/
structure RetryOutcome (α : Type) where
  result : Except FwupdError α
  attemptsMade : Nat
  sleeps : List Nat
  deriving Repr

/-- Modelled from the spec: the retry engine behind `fu_device_retry_full`
(in `fu-device.c`, outside the provided sources): the callback is tried
up to `rem` more times (current attempt included); a retryable error with
attempts remaining sleeps `delay` ms and retries, any other error (or
exhaustion) returns the underlying error. -/
def fu_device_retry_go {α : Type} (retryable : FwupdError → Bool) (delay : Nat)
    (f : Nat → Except FwupdError α) : Nat → Nat → RetryOutcome α
  | i, 0 =>
    match f i with
    | Except.ok a => ⟨Except.ok a, i + 1, []⟩
    | Except.error e => ⟨Except.error e, i + 1, []⟩
  | i, rem + 1 =>
    match f i with
    | Except.ok a => ⟨Except.ok a, i + 1, []⟩
    | Except.error e =>
      if rem = 0 then
        ⟨Except.error e, i + 1, []⟩
      else if retryable e then
        let k := fu_device_retry_go retryable delay f (i + 1) rem
        ⟨k.result, k.attemptsMade, delay :: k.sleeps⟩
      else
        ⟨Except.error e, i + 1, []⟩

/-- Modelled from the spec: `fu_device_retry_full(device, cb, count,
delay, NULL, error)` — run `f` up to `count` times with `delay` ms
between attempts. -/
def fu_device_retry_full {α : Type} (retryable : FwupdError → Bool)
    (count delay : Nat) (f : Nat → Except FwupdError α) : RetryOutcome α :=
  fu_device_retry_go retryable delay f 0 count

/-- Modelled from the spec: NotReady (the `signatureInvalid` error of
`fu_dell_k2_ec_dock_info_extract`) is the only retryable outcome of the
discovery cycle. -/
def dell_k2_discovery_retryable (e : FwupdError) : Bool :=
  e == FwupdError.signatureInvalid

/-- The retried discovery unit of `fu_dell_k2_ec_setup`:
`fu_device_retry_full(device, fu_dell_k2_ec_query_cb, 10, 2000, ...)`. -/
def fu_dell_k2_ec_setup_query (base_type : Nat) (env : Nat → AttemptEnv) :
    RetryOutcome FuDellK2DockInfoStructure :=
  fu_device_retry_full dell_k2_discovery_retryable 10 2000
    (fun i => fu_dell_k2_ec_query_cb base_type (env i))

/-- `DELL_K2_EC_HID_DATA_PAGE_SZ`: the fixed HID report data size.
Modelled from the spec: value from the missing header; every page buffer
is exactly this size. -/
def DELL_K2_EC_HID_DATA_PAGE_SZ : Nat := 192

/-- Modelled from the spec: per-device-class chunk sizes from the missing
header; the main EC uses a large fixed chunk, the remote-management class
sends the payload as one chunk (no sub-chunking), all other classes share
the "any-device" chunk size.  Only positivity and relative magnitude are
claim-relevant. -/
def DELL_K2_EC_DEV_EC_CHUNK_SZ : Nat := 65536

def DELL_K2_EC_DEV_NO_CHUNK_SZ : Nat := 4294967295

def DELL_K2_EC_DEV_ANY_CHUNK_SZ : Nat := 131072

/-- Modelled from the spec: chunk-acknowledgment response codes from the
missing header; only their pairwise distinctness is claim-relevant. -/
def DELL_K2_EC_RESP_TO_CHUNK_UPDATE_COMPLETE : Nat := 1

def DELL_K2_EC_RESP_TO_CHUNK_SEND_NEXT_CHUNK : Nat := 2

def DELL_K2_EC_RESP_TO_CHUNK_UPDATE_FAILED : Nat := 3

/-- `fu_dell_k2_ec_get_chunk_delaytime`: per-device-class settle delay
(ms) after all pages of a chunk are sent. -/
def fu_dell_k2_ec_get_chunk_delaytime (dev_type : Nat) : Nat :=
  if dev_type = DELL_K2_EC_DEV_TYPE_MAIN_EC then 3 * 1000
  else if dev_type = DELL_K2_EC_DEV_TYPE_RMM then 60 * 1000
  else if dev_type = DELL_K2_EC_DEV_TYPE_PD then 15 * 1000
  else if dev_type = DELL_K2_EC_DEV_TYPE_LAN then 70 * 1000
  else 30 * 1000

/-- `fu_dell_k2_ec_get_chunk_size`: per-device-class protocol chunk
size in bytes. -/
def fu_dell_k2_ec_get_chunk_size (dev_type : Nat) : Nat :=
  if dev_type = DELL_K2_EC_DEV_TYPE_MAIN_EC then DELL_K2_EC_DEV_EC_CHUNK_SZ
  else if dev_type = DELL_K2_EC_DEV_TYPE_RMM then DELL_K2_EC_DEV_NO_CHUNK_SZ
  else DELL_K2_EC_DEV_ANY_CHUNK_SZ

/-- `fu_dell_k2_ec_get_first_page_delaytime`: delay (ms) after the first
page of a chunk; nonzero only for the remote-management class. -/
def fu_dell_k2_ec_get_first_page_delaytime (dev_type : Nat) : Nat :=
  if dev_type = DELL_K2_EC_DEV_TYPE_RMM then 75 * 1000 else 0

/-- Worker for `fu_chunk_array_new_from_bytes` with explicit fuel
(`bytes.length` suffices since each step consumes at least one byte for
`chunkSz > 0`). -/
def fu_chunk_array_go (chunkSz : Nat) : Nat → List Nat → List (List Nat)
  | 0, _ => []
  | fuel + 1, bytes =>
    if bytes = [] then []
    else bytes.take chunkSz :: fu_chunk_array_go chunkSz fuel (bytes.drop chunkSz)

/-- Modelled from the spec: `fu_chunk_array_new_from_bytes` (in
`fu-chunk-array.c`, outside the provided sources) splits a byte buffer
into consecutive maximal slices of at most `chunkSz` bytes. -/
def fu_chunk_array_new_from_bytes (bytes : List Nat) (chunkSz : Nat) :
    List (List Nat) :=
  if chunkSz = 0 then [] else fu_chunk_array_go chunkSz bytes.length bytes

/-- Modelled from the spec: the transfer header built by
`fu_dell_k2_ec_hid_fwup_pkg_new` (in `fu-dell-k2-ec-hid.c`, outside the
provided sources) carrying the total payload size, the target device
type and the target device identifier. -/
def fu_dell_k2_ec_hid_fwup_hdr (fw_sz dev_type dev_identifier : Nat) :
    List Nat :=
  [dev_type, dev_identifier,
   fw_sz % 256, fw_sz / 256 % 256, fw_sz / 65536 % 256, fw_sz / 16777216 % 256]

/-- Modelled from the spec: `fu_dell_k2_ec_hid_fwup_pkg_new` prepends the
transfer header to the raw chunk bytes. -/
def fu_dell_k2_ec_hid_fwup_pkg_new (chk : List Nat)
    (fw_sz dev_type dev_identifier : Nat) : List Nat :=
  fu_dell_k2_ec_hid_fwup_hdr fw_sz dev_type dev_identifier ++ chk

/-- The C stack buffer `guint8 page_aligned[DELL_K2_EC_HID_DATA_PAGE_SZ]
= {0xff}`: first element 0xff, the rest zero-initialized. -/
def cPageBufInit : List Nat :=
  255 :: List.replicate (DELL_K2_EC_HID_DATA_PAGE_SZ - 1) 0

/-- `fu_memcpy_safe(page_aligned, ..., fu_chunk_get_data(page), ...)`:
the page bytes overwrite the buffer prefix, the initializer bytes past
`page.length` survive.  The buffer sent to `fu_dell_k2_ec_hid_write` is
always the whole `DELL_K2_EC_HID_DATA_PAGE_SZ`-byte array. -/
def page_aligned (page : List Nat) : List Nat :=
  page ++ cPageBufInit.drop page.length

/-- Chunking of the firmware payload done by
`fu_dell_k2_ec_write_firmware_helper` (lines 731-734). -/
def fu_dell_k2_ec_fw_chunks (fw : List Nat) (dev_type : Nat) :
    List (List Nat) :=
  fu_chunk_array_new_from_bytes fw (fu_dell_k2_ec_get_chunk_size dev_type)

/-- The transport pages sent for one chunk: the framed chunk buffer
sliced into `DELL_K2_EC_HID_DATA_PAGE_SZ`-sized pages, each aligned to
the full page size. -/
def fu_dell_k2_ec_chunk_pages (chk : List Nat)
    (fw_sz dev_type dev_identifier : Nat) : List (List Nat) :=
  (fu_chunk_array_new_from_bytes
      (fu_dell_k2_ec_hid_fwup_pkg_new chk fw_sz dev_type dev_identifier)
      DELL_K2_EC_HID_DATA_PAGE_SZ).map page_aligned

/-- The chunk loop of `fu_dell_k2_ec_write_firmware_helper` starting at
chunk index `i`: sends every page of the chunk, then reads the
acknowledgment byte `acks i` (byte 1 of the status report); the
`UpdateComplete` and `SendNextChunk` codes proceed, anything else aborts
with the chunk index and response code.  Returns the pages sent and the
outcome. -/
def fu_dell_k2_ec_write_chunks (fw_sz dev_type dev_identifier : Nat)
    (acks : Nat → Nat) :
    List (List Nat) → Nat → List (List Nat) × Except (Nat × Nat) Unit
  | [], _ => ([], Except.ok ())
  | chk :: rest, i =>
    let sent := fu_dell_k2_ec_chunk_pages chk fw_sz dev_type dev_identifier
    if acks i = DELL_K2_EC_RESP_TO_CHUNK_UPDATE_COMPLETE ∨
        acks i = DELL_K2_EC_RESP_TO_CHUNK_SEND_NEXT_CHUNK then
      let k := fu_dell_k2_ec_write_chunks fw_sz dev_type dev_identifier acks rest (i + 1)
      (sent ++ k.1, k.2)
    else
      (sent, Except.error (i, acks i))

/-- `fu_dell_k2_ec_write_firmware_helper`: split the payload into
device-class-sized chunks and drive the per-chunk page/acknowledgment
protocol. -/
def fu_dell_k2_ec_write_firmware_helper (fw : List Nat)
    (dev_type dev_identifier : Nat) (acks : Nat → Nat) :
    List (List Nat) × Except (Nat × Nat) Unit :=
  fu_dell_k2_ec_write_chunks fw.length dev_type dev_identifier acks
    (fu_dell_k2_ec_fw_chunks fw dev_type) 0

/-- Concrete sample topology entries and tables used by the witness
theorems below. -/
def sampleEntryPd : FuDellK2EcQueryEntry :=
  { ec_addr_map := { location := 0, device_type := DELL_K2_EC_DEV_TYPE_PD,
                     sub_type := 1, arg := 0, inst := 4 }
    version_b0 := 0, version_b1 := 0, version_b2 := 0, version_b3 := 5 }

def sampleEntryGr : FuDellK2EcQueryEntry :=
  { ec_addr_map := { location := 1, device_type := DELL_K2_EC_DEV_TYPE_TBT,
                     sub_type := DELL_K2_EC_DEV_TBT_SUBTYPE_GR, arg := 0, inst := 0 }
    version_b0 := 0, version_b1 := 0, version_b2 := 0, version_b3 := 8 }

def sampleEntryBr : FuDellK2EcQueryEntry :=
  { ec_addr_map := { location := 0, device_type := DELL_K2_EC_DEV_TYPE_TBT,
                     sub_type := DELL_K2_EC_DEV_TBT_SUBTYPE_BR, arg := 0, inst := 0 }
    version_b0 := 0, version_b1 := 0, version_b2 := 0, version_b3 := 9 }

def sampleInfoA : FuDellK2DockInfoStructure :=
  { total_devices := 2, first_index := 0, last_index := 1
    devices := [sampleEntryPd, sampleEntryGr] }

def sampleInfoB : FuDellK2DockInfoStructure :=
  { total_devices := 2, first_index := 0, last_index := 1
    devices := [sampleEntryGr, sampleEntryBr] }

/-- A wire topology table whose header claims 21 devices while the
fixed-capacity array holds 20 entries; the entries match no queried
device type. -/
def oobScanEntry : FuDellK2EcQueryEntry :=
  { ec_addr_map := { location := 0, device_type := 99, sub_type := 1, arg := 0, inst := 0 }
    version_b0 := 0, version_b1 := 0, version_b2 := 0, version_b3 := 0 }

def oobInfo : FuDellK2DockInfoStructure :=
  { total_devices := 21, first_index := 0, last_index := 20
    devices := List.replicate 20 oobScanEntry }

/-- A topology read reporting zero devices (dock still booting). -/
def zeroInfo : FuDellK2DockInfoStructure :=
  { total_devices := 0, first_index := 0, last_index := 0, devices := [] }

/-- A discovery environment in which every attempt reads a zero-device
topology. -/
def zeroEnv : Nat → AttemptEnv :=
  fun _ => { dock_data := Except.ok (), dock_info_read := Except.ok zeroInfo }

theorem dev_entry_go_eq_find (info : FuDellK2DockInfoStructure)
    (device_type sub_type inst : Nat)
    (hlen : info.total_devices ≤ info.devices.length) :
    ∀ rem i, i + rem = info.total_devices →
      (fu_dell_k2_ec_dev_entry_go info device_type sub_type inst i rem).2 =
        ((info.devices.take info.total_devices).drop i).find?
          (devEntryMatch device_type sub_type inst) := by
  intro rem
  induction rem with
  | zero =>
    intro i hi
    have hle : (info.devices.take info.total_devices).length ≤ i := by
      simp [List.length_take]
      omega
    simp [fu_dell_k2_ec_dev_entry_go, List.drop_eq_nil_of_le hle]
  | succ rem ih =>
    intro i hi
    have h : i < info.total_devices := by omega
    have hlt : i < info.devices.length := Nat.lt_of_lt_of_le h hlen
    have htake : i < (info.devices.take info.total_devices).length := by
      simp [List.length_take]
      omega
    have hq : (info.devices.take info.total_devices)[i] = info.devices[i] := by
      have h1 : (info.devices.take info.total_devices)[i]? = info.devices[i]? :=
        List.getElem?_take_of_lt h
      rw [List.getElem?_eq_getElem htake, List.getElem?_eq_getElem hlt] at h1
      exact Option.some.inj h1
    have hdrop : (info.devices.take info.total_devices).drop i =
        info.devices[i] :: (info.devices.take info.total_devices).drop (i + 1) := by
      rw [List.drop_eq_getElem_cons htake, hq]
    have hgetD : info.devices.getD i oobEntry = info.devices[i] := by
      simp [List.getD_eq_getElem?_getD, List.getElem?_eq_getElem hlt]
    rw [fu_dell_k2_ec_dev_entry_go, hdrop, List.find?_cons]
    simp only [hgetD]
    by_cases hm : devEntryMatch device_type sub_type inst (info.devices[i]) = true
    · simp [hm]
    · simp only [Bool.not_eq_true] at hm
      simp only [hm, if_false, cond_false, Bool.false_eq_true]
      exact ih (i + 1) (by omega)

theorem dev_entry_eq_find (info : FuDellK2DockInfoStructure)
    (device_type sub_type inst : Nat)
    (hlen : info.total_devices ≤ info.devices.length) :
    fu_dell_k2_ec_dev_entry info device_type sub_type inst =
      (info.devices.take info.total_devices).find?
        (devEntryMatch device_type sub_type inst) := by
  have := dev_entry_go_eq_find info device_type sub_type inst hlen info.total_devices 0
    (by omega)
  simpa [fu_dell_k2_ec_dev_entry, fu_dell_k2_ec_dev_entry_loop] using this

theorem devEntryMatch_inst_irrel (device_type sub_type a b : Nat)
    (h : device_type ≠ DELL_K2_EC_DEV_TYPE_PD) :
    devEntryMatch device_type sub_type a = devEntryMatch device_type sub_type b := by
  funext e
  have hb : (device_type != DELL_K2_EC_DEV_TYPE_PD) = true := by
    simpa [bne_iff_ne] using h
  simp [devEntryMatch, hb]

theorem dev_entry_eq_none_of_not_exists (info : FuDellK2DockInfoStructure)
    (device_type sub_type inst : Nat)
    (hlen : info.total_devices ≤ info.devices.length)
    (h : ¬ ∃ e ∈ info.devices.take info.total_devices,
      devEntryMatch device_type sub_type inst e = true) :
    fu_dell_k2_ec_dev_entry info device_type sub_type inst = none := by
  rw [dev_entry_eq_find _ _ _ _ hlen, List.find?_eq_none]
  intro x hx hpx
  exact h ⟨x, hx, hpx⟩

/-- C5: `fu_dell_k2_ec_dev_entry` is a linear scan in which a requested
`sub_type` of 0 matches an entry of the requested `device_type`
regardless of that entry's sub-type, and the `instance` field is
compared only for the power-delivery device type; for all other device
types the requested instance is ignored. -/
theorem claim_C5_dev_entry (info : FuDellK2DockInfoStructure)
    (device_type sub_type inst inst2 : Nat)
    (hlen : info.total_devices ≤ info.devices.length) :
    (device_type ≠ DELL_K2_EC_DEV_TYPE_PD →
      fu_dell_k2_ec_dev_entry info device_type sub_type inst =
        fu_dell_k2_ec_dev_entry info device_type sub_type inst2) ∧
    (∀ e, fu_dell_k2_ec_dev_entry info DELL_K2_EC_DEV_TYPE_PD sub_type inst = some e →
      e.ec_addr_map.inst = inst) ∧
    (∀ e, e ∈ info.devices.take info.total_devices →
      e.ec_addr_map.device_type = device_type →
      (device_type = DELL_K2_EC_DEV_TYPE_PD → e.ec_addr_map.inst = inst) →
      (fu_dell_k2_ec_dev_entry info device_type 0 inst).isSome = true) ∧
    (∀ e, fu_dell_k2_ec_dev_entry info device_type sub_type inst = some e →
      e.ec_addr_map.device_type = device_type ∧
        (sub_type ≠ 0 → e.ec_addr_map.sub_type = sub_type)) := by
  refine ⟨?_, ?_, ?_, ?_⟩
  · intro h
    rw [dev_entry_eq_find info device_type sub_type inst hlen,
      dev_entry_eq_find info device_type sub_type inst2 hlen,
      devEntryMatch_inst_irrel device_type sub_type inst inst2 h]
  · intro e he
    rw [dev_entry_eq_find _ _ _ _ hlen] at he
    have hp := List.find?_some he
    simp [devEntryMatch] at hp
    tauto
  · intro e hmem hdt hinst
    rw [dev_entry_eq_find _ _ _ _ hlen, List.find?_isSome]
    refine ⟨e, hmem, ?_⟩
    simp [devEntryMatch, hdt]
    by_cases hp : device_type = DELL_K2_EC_DEV_TYPE_PD
    · exact Or.inr (hinst hp)
    · exact Or.inl hp
  · intro e he
    rw [dev_entry_eq_find _ _ _ _ hlen] at he
    have hp := List.find?_some he
    simp [devEntryMatch] at hp
    constructor
    · tauto
    · intro hst
      tauto

/-- Witness for C5 on a concrete two-entry topology. -/
theorem claim_C5_dev_entry_witness :
    (DELL_K2_EC_DEV_TYPE_TBT ≠ DELL_K2_EC_DEV_TYPE_PD →
      fu_dell_k2_ec_dev_entry sampleInfoA DELL_K2_EC_DEV_TYPE_TBT 0 0 =
        fu_dell_k2_ec_dev_entry sampleInfoA DELL_K2_EC_DEV_TYPE_TBT 0 7) ∧
    (∀ e, fu_dell_k2_ec_dev_entry sampleInfoA DELL_K2_EC_DEV_TYPE_PD 0 0 = some e →
      e.ec_addr_map.inst = 0) ∧
    (∀ e, e ∈ sampleInfoA.devices.take sampleInfoA.total_devices →
      e.ec_addr_map.device_type = DELL_K2_EC_DEV_TYPE_TBT →
      (DELL_K2_EC_DEV_TYPE_TBT = DELL_K2_EC_DEV_TYPE_PD → e.ec_addr_map.inst = 0) →
      (fu_dell_k2_ec_dev_entry sampleInfoA DELL_K2_EC_DEV_TYPE_TBT 0 0).isSome = true) ∧
    (∀ e, fu_dell_k2_ec_dev_entry sampleInfoA DELL_K2_EC_DEV_TYPE_TBT 0 0 = some e →
      e.ec_addr_map.device_type = DELL_K2_EC_DEV_TYPE_TBT ∧
        ((0:Nat) ≠ 0 → e.ec_addr_map.sub_type = 0)) :=
  claim_C5_dev_entry sampleInfoA DELL_K2_EC_DEV_TYPE_TBT 0 0 7 (by decide)

/-- C9: the first-page delay is nonzero only for the remote-management
class (75 s), and the chunk settle delay is 3 s for the main EC and 70 s
for the network controller. -/
theorem claim_C9_delays :
    (∀ dev_type, fu_dell_k2_ec_get_first_page_delaytime dev_type ≠ 0 ↔
      dev_type = DELL_K2_EC_DEV_TYPE_RMM) ∧
    fu_dell_k2_ec_get_first_page_delaytime DELL_K2_EC_DEV_TYPE_RMM = 75 * 1000 ∧
    fu_dell_k2_ec_get_chunk_delaytime DELL_K2_EC_DEV_TYPE_MAIN_EC = 3 * 1000 ∧
    fu_dell_k2_ec_get_chunk_delaytime DELL_K2_EC_DEV_TYPE_LAN = 70 * 1000 := by
  refine ⟨?_, by decide, by decide, by decide⟩
  intro dev_type
  unfold fu_dell_k2_ec_get_first_page_delaytime
  by_cases h : dev_type = DELL_K2_EC_DEV_TYPE_RMM
  · simp [h]
  · simp [h]

/-- C4 counterexample: the code swallows a NotFound-class write error
during LOCK too (`lock = true`): the call succeeds and sets the in-memory
flag, where the claim says the error is propagated and the call fails. -/
theorem claim_C4_counterexample :
    fu_dell_k2_ec_own_dock false true (some FwupdError.notFound) =
      (Except.ok (), true) := rfl

/-- C4 (amended): `fu_dell_k2_ec_own_dock` swallows the NotFound-class
write error during BOTH lock and unlock; every other error kind is
propagated and leaves the flag unchanged; on success the flag is always
set to the requested value. -/
theorem claim_C4_own_dock (dock_lock_state lock : Bool)
    (writeResult : Option FwupdError) :
    ((writeResult = none ∨ writeResult = some FwupdError.notFound) →
      fu_dell_k2_ec_own_dock dock_lock_state lock writeResult =
        (Except.ok (), lock)) ∧
    (∀ e, writeResult = some e → e ≠ FwupdError.notFound →
      fu_dell_k2_ec_own_dock dock_lock_state lock writeResult =
        (Except.error e, dock_lock_state)) := by
  constructor
  · rintro (h | h) <;> subst h <;> simp [fu_dell_k2_ec_own_dock]
  · rintro e h hne
    subst h
    simp [fu_dell_k2_ec_own_dock, hne]

/-- Witness for the amended C4: a busy error during unlock propagates and
leaves the flag untouched. -/
theorem claim_C4_own_dock_witness :
    fu_dell_k2_ec_own_dock true false (some FwupdError.busy) =
      (Except.error FwupdError.busy, true) :=
  (claim_C4_own_dock true false (some FwupdError.busy)).2
    FwupdError.busy rfl (by decide)

/-- C7 (code bug): a wire table claiming `total_devices = 21` is accepted
by `fu_dell_k2_ec_dock_info_extract` (only `total_devices == 0` is
rejected), yet both the `fu_dell_k2_ec_dev_entry` scan and the
inventory-logging loop then read index 20 of the fixed 20-entry
`devices` array — one past its last valid index 19. -/
theorem claim_C7_oob_access :
    fu_dell_k2_ec_dock_info_extract oobInfo = Except.ok () ∧
    oobInfo.devices.length = 20 ∧
    (20 ∈ fu_dell_k2_ec_dev_entry_accesses oobInfo DELL_K2_EC_DEV_TYPE_MAIN_EC 0 0) ∧
    (20 ∈ fu_dell_k2_ec_dock_info_log_accesses oobInfo) := by
  refine ⟨rfl, by decide, by decide, by decide⟩

theorem tbt_present_iff (info : FuDellK2DockInfoStructure)
    (hlen : info.total_devices ≤ info.devices.length) (st : Nat) (hst : st ≠ 0) :
    (fu_dell_k2_ec_dev_entry info DELL_K2_EC_DEV_TYPE_TBT st 0).isSome = true ↔
      ∃ e ∈ info.devices.take info.total_devices,
        e.ec_addr_map.device_type = DELL_K2_EC_DEV_TYPE_TBT ∧
          e.ec_addr_map.sub_type = st := by
  have h5 : (DELL_K2_EC_DEV_TYPE_TBT != DELL_K2_EC_DEV_TYPE_PD) = true := by decide
  rw [dev_entry_eq_find _ _ _ _ hlen, List.find?_isSome]
  constructor
  · rintro ⟨x, hx, hp⟩
    simp [devEntryMatch, h5] at hp
    refine ⟨x, hx, hp.1, ?_⟩
    rcases hp.2 with h0 | h0
    · exact absurd h0 hst
    · exact h0
  · rintro ⟨e, he, h1, h2⟩
    refine ⟨e, he, ?_⟩
    simp [devEntryMatch, h5, h1, h2]

/-- C6: SKU derivation is a pure function of the fetched topology with
fixed priority: a Barlow-Ridge Thunderbolt entry yields TBT5 (even when a
Goshen-Ridge entry is also present); otherwise a Goshen-Ridge entry
yields TBT4; otherwise the DP-alt default. -/
theorem claim_C6_sku_priority (info : FuDellK2DockInfoStructure)
    (hlen : info.total_devices ≤ info.devices.length) :
    ((∃ e ∈ info.devices.take info.total_devices,
        e.ec_addr_map.device_type = DELL_K2_EC_DEV_TYPE_TBT ∧
          e.ec_addr_map.sub_type = DELL_K2_EC_DEV_TBT_SUBTYPE_BR) →
      fu_dell_k2_ec_set_dock_sku FU_DELL_K2_BASE_TYPE_K2 info =
        Except.ok K2_DOCK_SKU_TBT5) ∧
    (¬(∃ e ∈ info.devices.take info.total_devices,
        e.ec_addr_map.device_type = DELL_K2_EC_DEV_TYPE_TBT ∧
          e.ec_addr_map.sub_type = DELL_K2_EC_DEV_TBT_SUBTYPE_BR) →
      (∃ e ∈ info.devices.take info.total_devices,
        e.ec_addr_map.device_type = DELL_K2_EC_DEV_TYPE_TBT ∧
          e.ec_addr_map.sub_type = DELL_K2_EC_DEV_TBT_SUBTYPE_GR) →
      fu_dell_k2_ec_set_dock_sku FU_DELL_K2_BASE_TYPE_K2 info =
        Except.ok K2_DOCK_SKU_TBT4) ∧
    (¬(∃ e ∈ info.devices.take info.total_devices,
        e.ec_addr_map.device_type = DELL_K2_EC_DEV_TYPE_TBT ∧
          e.ec_addr_map.sub_type = DELL_K2_EC_DEV_TBT_SUBTYPE_BR) →
      ¬(∃ e ∈ info.devices.take info.total_devices,
        e.ec_addr_map.device_type = DELL_K2_EC_DEV_TYPE_TBT ∧
          e.ec_addr_map.sub_type = DELL_K2_EC_DEV_TBT_SUBTYPE_GR) →
      fu_dell_k2_ec_set_dock_sku FU_DELL_K2_BASE_TYPE_K2 info =
        Except.ok K2_DOCK_SKU_DPALT) := by
  have hBR := tbt_present_iff info hlen DELL_K2_EC_DEV_TBT_SUBTYPE_BR (by decide)
  have hGR := tbt_present_iff info hlen DELL_K2_EC_DEV_TBT_SUBTYPE_GR (by decide)
  refine ⟨?_, ?_, ?_⟩
  · intro h
    have hb := hBR.mpr h
    simp [fu_dell_k2_ec_set_dock_sku, hb]
  · intro hnb hg
    have hb : ¬ ((fu_dell_k2_ec_dev_entry info DELL_K2_EC_DEV_TYPE_TBT
        DELL_K2_EC_DEV_TBT_SUBTYPE_BR 0).isSome = true) :=
      fun hc => hnb (hBR.mp hc)
    have hgg := hGR.mpr hg
    simp [fu_dell_k2_ec_set_dock_sku, hb, hgg]
  · intro hnb hng
    have hb : ¬ ((fu_dell_k2_ec_dev_entry info DELL_K2_EC_DEV_TYPE_TBT
        DELL_K2_EC_DEV_TBT_SUBTYPE_BR 0).isSome = true) :=
      fun hc => hnb (hBR.mp hc)
    have hg : ¬ ((fu_dell_k2_ec_dev_entry info DELL_K2_EC_DEV_TYPE_TBT
        DELL_K2_EC_DEV_TBT_SUBTYPE_GR 0).isSome = true) :=
      fun hc => hng (hGR.mp hc)
    simp [fu_dell_k2_ec_set_dock_sku, hb, hg]

/-- Witness for C6: a topology holding both a Goshen-Ridge and a
Barlow-Ridge entry classifies as TBT5. -/
theorem claim_C6_sku_priority_witness :
    fu_dell_k2_ec_set_dock_sku FU_DELL_K2_BASE_TYPE_K2 sampleInfoB =
      Except.ok K2_DOCK_SKU_TBT5 :=
  (claim_C6_sku_priority sampleInfoB (by decide)).1
    ⟨sampleEntryBr, by decide, by decide, by decide⟩

/-- C10: every per-device version getter returns 0 when no matching entry
exists in the topology (absence is never an error) and otherwise the
matching entry's 32-bit version interpreted big-endian. -/
theorem claim_C10_version_getters (info : FuDellK2DockInfoStructure)
    (sub_type inst : Nat)
    (hlen : info.total_devices ≤ info.devices.length) :
    ((¬ ∃ e ∈ info.devices.take info.total_devices,
        devEntryMatch DELL_K2_EC_DEV_TYPE_PD sub_type inst e = true) →
      fu_dell_k2_ec_get_pd_version info sub_type inst = 0) ∧
    (∀ e, fu_dell_k2_ec_dev_entry info DELL_K2_EC_DEV_TYPE_PD sub_type inst = some e →
      fu_dell_k2_ec_get_pd_version info sub_type inst = guint32_from_be_bytes e) ∧
    ((¬ ∃ e ∈ info.devices.take info.total_devices,
        devEntryMatch DELL_K2_EC_DEV_TYPE_LAN 0 0 e = true) →
      fu_dell_k2_ec_get_ilan_version info = 0) ∧
    (∀ e, fu_dell_k2_ec_dev_entry info DELL_K2_EC_DEV_TYPE_LAN 0 0 = some e →
      fu_dell_k2_ec_get_ilan_version info = guint32_from_be_bytes e) ∧
    ((¬ ∃ e ∈ info.devices.take info.total_devices,
        devEntryMatch DELL_K2_EC_DEV_TYPE_WTPD 0 0 e = true) →
      fu_dell_k2_ec_get_wtpd_version info = 0) ∧
    (∀ e, fu_dell_k2_ec_dev_entry info DELL_K2_EC_DEV_TYPE_WTPD 0 0 = some e →
      fu_dell_k2_ec_get_wtpd_version info = guint32_from_be_bytes e) ∧
    ((¬ ∃ e ∈ info.devices.take info.total_devices,
        devEntryMatch DELL_K2_EC_DEV_TYPE_DP_MUX 0 0 e = true) →
      fu_dell_k2_ec_get_dpmux_version info = 0) ∧
    (∀ e, fu_dell_k2_ec_dev_entry info DELL_K2_EC_DEV_TYPE_DP_MUX 0 0 = some e →
      fu_dell_k2_ec_get_dpmux_version info = guint32_from_be_bytes e) ∧
    ((¬ ∃ e ∈ info.devices.take info.total_devices,
        devEntryMatch DELL_K2_EC_DEV_TYPE_RMM 0 0 e = true) →
      fu_dell_k2_ec_get_rmm_version info = 0) ∧
    (∀ e, fu_dell_k2_ec_dev_entry info DELL_K2_EC_DEV_TYPE_RMM 0 0 = some e →
      fu_dell_k2_ec_get_rmm_version info = guint32_from_be_bytes e) ∧
    ((¬ ∃ e ∈ info.devices.take info.total_devices,
        devEntryMatch DELL_K2_EC_DEV_TYPE_MAIN_EC 0 0 e = true) →
      fu_dell_k2_ec_get_ec_version info = 0) ∧
    (∀ e, fu_dell_k2_ec_dev_entry info DELL_K2_EC_DEV_TYPE_MAIN_EC 0 0 = some e →
      fu_dell_k2_ec_get_ec_version info = guint32_from_be_bytes e) := by
  refine ⟨?_, ?_, ?_, ?_, ?_, ?_, ?_, ?_, ?_, ?_, ?_, ?_⟩
  · intro h
    simp [fu_dell_k2_ec_get_pd_version,
      dev_entry_eq_none_of_not_exists info _ _ _ hlen h]
  · intro e he
    simp [fu_dell_k2_ec_get_pd_version, he]
  · intro h
    simp [fu_dell_k2_ec_get_ilan_version,
      dev_entry_eq_none_of_not_exists info _ _ _ hlen h]
  · intro e he
    simp [fu_dell_k2_ec_get_ilan_version, he]
  · intro h
    simp [fu_dell_k2_ec_get_wtpd_version,
      dev_entry_eq_none_of_not_exists info _ _ _ hlen h]
  · intro e he
    simp [fu_dell_k2_ec_get_wtpd_version, he]
  · intro h
    simp [fu_dell_k2_ec_get_dpmux_version,
      dev_entry_eq_none_of_not_exists info _ _ _ hlen h]
  · intro e he
    simp [fu_dell_k2_ec_get_dpmux_version, he]
  · intro h
    simp [fu_dell_k2_ec_get_rmm_version,
      dev_entry_eq_none_of_not_exists info _ _ _ hlen h]
  · intro e he
    simp [fu_dell_k2_ec_get_rmm_version, he]
  · intro h
    simp [fu_dell_k2_ec_get_ec_version,
      dev_entry_eq_none_of_not_exists info _ _ _ hlen h]
  · intro e he
    simp [fu_dell_k2_ec_get_ec_version, he]

/-- Witness for C10: the concrete topology holds a PD entry (version
read big-endian) and no remote-management entry (version 0). -/
theorem claim_C10_version_getters_witness :
    fu_dell_k2_ec_get_pd_version sampleInfoA 1 4 =
      guint32_from_be_bytes sampleEntryPd ∧
    fu_dell_k2_ec_get_rmm_version sampleInfoA = 0 :=
  ⟨(claim_C10_version_getters sampleInfoA 1 4 (by decide)).2.1
      sampleEntryPd (by decide),
    (claim_C10_version_getters sampleInfoA 1 4 (by decide)).2.2.2.2.2.2.2.2.1
      (by decide)⟩

theorem fu_dell_k2_retry_go_unfold {α : Type} (retryable : FwupdError → Bool)
    (delay : Nat) (f : Nat → Except FwupdError α) (i rem : Nat) :
    fu_device_retry_go retryable delay f i (rem + 1) =
      match f i with
      | Except.ok a => ⟨Except.ok a, i + 1, []⟩
      | Except.error e =>
        if rem = 0 then
          ⟨Except.error e, i + 1, []⟩
        else if retryable e then
          let k := fu_device_retry_go retryable delay f (i + 1) rem
          ⟨k.result, k.attemptsMade, delay :: k.sleeps⟩
        else
          ⟨Except.error e, i + 1, []⟩ := rfl

theorem retry_go_all_fail {α : Type} (retryable : FwupdError → Bool) (delay : Nat)
    (f : Nat → Except FwupdError α) (r : FwupdError) (hr : retryable r = true) :
    ∀ rem, 1 ≤ rem → ∀ i, (∀ k, k < rem → f (i + k) = Except.error r) →
      fu_device_retry_go retryable delay f i rem =
        ⟨Except.error r, i + rem, List.replicate (rem - 1) delay⟩ := by
  intro rem
  induction rem with
  | zero => omega
  | succ n ih =>
    intro _ i hf
    have hf0 : f i = Except.error r := by simpa using hf 0 (by omega)
    by_cases hn : n = 0
    · subst hn
      simp [fu_device_retry_go, hf0]
    · obtain ⟨m, rfl⟩ : ∃ m, n = m + 1 := ⟨n - 1, by omega⟩
      have hrec := ih (by omega) (i + 1) (fun k hk => by
        have h2 := hf (k + 1) (by omega)
        have h3 : i + 1 + k = i + (k + 1) := by omega
        rw [h3]
        exact h2)
      rw [fu_dell_k2_retry_go_unfold]
      simp only [hf0]
      rw [if_neg (Nat.succ_ne_zero m), if_pos hr, hrec]
      have hatt : i + 1 + (m + 1) = i + (m + 1 + 1) := by omega
      rw [hatt]
      simp [List.replicate_succ]

theorem retry_go_first_fatal {α : Type} (retryable : FwupdError → Bool) (delay : Nat)
    (f : Nat → Except FwupdError α) (r e : FwupdError)
    (hr : retryable r = true) (he : retryable e = false) :
    ∀ j rem i, j + 1 ≤ rem →
      (∀ k, k < j → f (i + k) = Except.error r) →
      f (i + j) = Except.error e →
      fu_device_retry_go retryable delay f i rem =
        ⟨Except.error e, i + j + 1, List.replicate j delay⟩ := by
  intro j
  induction j with
  | zero =>
    intro rem i hrem _ hfj
    have hf0 : f i = Except.error e := by simpa using hfj
    obtain ⟨m, rfl⟩ : ∃ m, rem = m + 1 := ⟨rem - 1, by omega⟩
    rw [fu_dell_k2_retry_go_unfold]
    simp only [hf0]
    by_cases hm : m = 0
    · simp [hm]
    · rw [if_neg hm, if_neg (by simp [he])]
      rfl
  | succ n ih =>
    intro rem i hrem hfk hfj
    have hf0 : f i = Except.error r := by simpa using hfk 0 (by omega)
    obtain ⟨m, rfl⟩ : ∃ m, rem = m + 1 := ⟨rem - 1, by omega⟩
    have hm : m ≠ 0 := by omega
    have hrec := ih m (i + 1) (by omega)
      (fun k hk => by
        have h2 := hfk (k + 1) (by omega)
        have h3 : i + 1 + k = i + (k + 1) := by omega
        rw [h3]
        exact h2)
      (by
        have h3 : i + 1 + n = i + (n + 1) := by omega
        rw [h3]
        exact hfj)
    rw [fu_dell_k2_retry_go_unfold]
    simp only [hf0]
    rw [if_neg hm, if_pos hr, hrec]
    have hatt : i + 1 + n + 1 = i + (n + 1) + 1 := by omega
    simp [hatt, List.replicate_succ]

/-- C3: the identity + topology + SKU queries form one retryable unit
retried up to 10 times with a 2000 ms inter-attempt delay; NotReady
(`total_devices == 0`, the `signatureInvalid` error) is the only
retryable outcome, any other error aborts immediately; after 10 failed
attempts the discovery fails with the underlying error. -/
theorem claim_C3_discovery (base_type : Nat) (env : Nat → AttemptEnv) :
    ((∀ k, k < 10 → fu_dell_k2_ec_query_cb base_type (env k) =
        Except.error FwupdError.signatureInvalid) →
      fu_dell_k2_ec_setup_query base_type env =
        ⟨Except.error FwupdError.signatureInvalid, 10, List.replicate 9 2000⟩) ∧
    (∀ j e, j < 10 →
      (∀ k, k < j → fu_dell_k2_ec_query_cb base_type (env k) =
        Except.error FwupdError.signatureInvalid) →
      fu_dell_k2_ec_query_cb base_type (env j) = Except.error e →
      e ≠ FwupdError.signatureInvalid →
      fu_dell_k2_ec_setup_query base_type env =
        ⟨Except.error e, j + 1, List.replicate j 2000⟩) ∧
    (∀ info : FuDellK2DockInfoStructure, info.total_devices = 0 →
      fu_dell_k2_ec_query_cb base_type
          { dock_data := Except.ok (), dock_info_read := Except.ok info } =
        Except.error FwupdError.signatureInvalid) := by
  refine ⟨?_, ?_, ?_⟩
  · intro h
    exact retry_go_all_fail dell_k2_discovery_retryable 2000
      (fun i => fu_dell_k2_ec_query_cb base_type (env i))
      FwupdError.signatureInvalid rfl 10 (by omega) 0
      (fun k hk => by simpa using h k hk)
  · intro j e hj hgood hbad hne
    have he : dell_k2_discovery_retryable e = false := by
      simp [dell_k2_discovery_retryable]
      exact hne
    have h := retry_go_first_fatal dell_k2_discovery_retryable 2000
      (fun i => fu_dell_k2_ec_query_cb base_type (env i))
      FwupdError.signatureInvalid e rfl he j 10 0 (by omega)
      (fun k hk => by simpa using hgood k hk)
      (by simpa using hbad)
    rw [show (0:Nat) + j + 1 = j + 1 by omega] at h
    exact h
  · intro info h0
    simp [fu_dell_k2_ec_query_cb, fu_dell_k2_ec_dock_info_cmd,
      fu_dell_k2_ec_dock_info_extract, h0]

/-- Witness for C3: every attempt reads a zero-device topology, so the
discovery makes 10 attempts with 9 inter-attempt 2000 ms sleeps and
fails with the NotReady error. -/
theorem claim_C3_discovery_witness :
    fu_dell_k2_ec_setup_query FU_DELL_K2_BASE_TYPE_K2 zeroEnv =
      ⟨Except.error FwupdError.signatureInvalid, 10, List.replicate 9 2000⟩ :=
  (claim_C3_discovery FU_DELL_K2_BASE_TYPE_K2 zeroEnv).1 (fun _ _ => rfl)

theorem fu_chunk_array_go_succ (chunkSz fuel : Nat) (bytes : List Nat) :
    fu_chunk_array_go chunkSz (fuel + 1) bytes =
      if bytes = [] then []
      else bytes.take chunkSz :: fu_chunk_array_go chunkSz fuel (bytes.drop chunkSz) := rfl

theorem chunk_go_flatten (chunkSz : Nat) (hc : 0 < chunkSz) :
    ∀ fuel bytes, bytes.length ≤ fuel →
      (fu_chunk_array_go chunkSz fuel bytes).flatten = bytes := by
  intro fuel
  induction fuel with
  | zero =>
    intro bytes hb
    have h0 : bytes = [] := List.eq_nil_of_length_eq_zero (by omega)
    subst h0
    rfl
  | succ n ih =>
    intro bytes hb
    by_cases hn : bytes = []
    · subst hn
      rfl
    · rw [fu_chunk_array_go_succ, if_neg hn, List.flatten_cons,
        ih (bytes.drop chunkSz) (by simp [List.length_drop]; omega),
        List.take_append_drop]

theorem chunk_go_length (chunkSz : Nat) (hc : 0 < chunkSz) :
    ∀ fuel bytes, bytes.length ≤ fuel →
      (fu_chunk_array_go chunkSz fuel bytes).length =
        (bytes.length + chunkSz - 1) / chunkSz := by
  intro fuel
  induction fuel with
  | zero =>
    intro bytes hb
    have h0 : bytes = [] := List.eq_nil_of_length_eq_zero (by omega)
    subst h0
    symm
    simp only [List.length_nil, fu_chunk_array_go]
    exact Nat.div_eq_of_lt (by omega)
  | succ n ih =>
    intro bytes hb
    by_cases hn : bytes = []
    · subst hn
      symm
      simp only [List.length_nil, fu_chunk_array_go_succ, if_pos rfl]
      exact Nat.div_eq_of_lt (by omega)
    · have hpos : 0 < bytes.length := List.length_pos.mpr hn
      rw [fu_chunk_array_go_succ, if_neg hn, List.length_cons,
        ih (bytes.drop chunkSz) (by simp [List.length_drop]; omega)]
      simp only [List.length_drop]
      by_cases hLc : chunkSz ≤ bytes.length
      · have h1 : bytes.length - chunkSz + chunkSz - 1 = bytes.length - 1 := by omega
        have h2 : bytes.length + chunkSz - 1 = (bytes.length - 1) + chunkSz := by omega
        rw [h1, h2, Nat.add_div_right _ hc]
      · have h1 : bytes.length - chunkSz = 0 := by omega
        have h2 : bytes.length + chunkSz - 1 = (bytes.length - 1) + chunkSz := by omega
        rw [h1, h2, Nat.add_div_right _ hc]
        have h3 : (0 + chunkSz - 1) / chunkSz = 0 := Nat.div_eq_of_lt (by omega)
        have h4 : (bytes.length - 1) / chunkSz = 0 := Nat.div_eq_of_lt (by omega)
        rw [h3, h4]

theorem chunk_go_mem (chunkSz : Nat) (hc : 0 < chunkSz) :
    ∀ fuel bytes, bytes.length ≤ fuel →
      ∀ l ∈ fu_chunk_array_go chunkSz fuel bytes,
        l ≠ [] ∧ l.length ≤ chunkSz := by
  intro fuel
  induction fuel with
  | zero =>
    intro bytes hb l hl
    have h0 : bytes = [] := List.eq_nil_of_length_eq_zero (by omega)
    subst h0
    exact absurd hl (by simp [fu_chunk_array_go])
  | succ n ih =>
    intro bytes hb l hl
    by_cases hn : bytes = []
    · subst hn
      exact absurd hl (by simp [fu_chunk_array_go_succ])
    · have hpos : 0 < bytes.length := List.length_pos.mpr hn
      rw [fu_chunk_array_go_succ, if_neg hn] at hl
      rcases List.mem_cons.mp hl with h | h
      · subst h
        refine ⟨List.ne_nil_of_length_pos (by simp [List.length_take]; omega), ?_⟩
        simp [List.length_take]
      · exact ih (bytes.drop chunkSz) (by simp [List.length_drop]; omega) l h

theorem fu_chunk_array_flatten (bytes : List Nat) (chunkSz : Nat) (hc : 0 < chunkSz) :
    (fu_chunk_array_new_from_bytes bytes chunkSz).flatten = bytes := by
  rw [fu_chunk_array_new_from_bytes, if_neg (by omega)]
  exact chunk_go_flatten chunkSz hc bytes.length bytes (Nat.le_refl _)

theorem fu_chunk_array_length (bytes : List Nat) (chunkSz : Nat) (hc : 0 < chunkSz) :
    (fu_chunk_array_new_from_bytes bytes chunkSz).length =
      (bytes.length + chunkSz - 1) / chunkSz := by
  rw [fu_chunk_array_new_from_bytes, if_neg (by omega)]
  exact chunk_go_length chunkSz hc bytes.length bytes (Nat.le_refl _)

theorem fu_chunk_array_mem (bytes : List Nat) (chunkSz : Nat) (hc : 0 < chunkSz) :
    ∀ l ∈ fu_chunk_array_new_from_bytes bytes chunkSz,
      l ≠ [] ∧ l.length ≤ chunkSz := by
  rw [fu_chunk_array_new_from_bytes, if_neg (by omega)]
  exact chunk_go_mem chunkSz hc bytes.length bytes (Nat.le_refl _)

theorem chunk_size_pos (dev_type : Nat) :
    0 < fu_dell_k2_ec_get_chunk_size dev_type := by
  unfold fu_dell_k2_ec_get_chunk_size
  split_ifs <;> decide

theorem drop_replicate_nat (a : Nat) :
    ∀ m n, (List.replicate n a).drop m = List.replicate (n - m) a := by
  intro m
  induction m with
  | zero =>
    intro n
    rfl
  | succ k ih =>
    intro n
    cases n with
    | zero => simp
    | succ n2 =>
      rw [List.replicate_succ, List.drop_succ_cons, ih n2]
      congr 1
      omega

theorem page_aligned_spec (p : List Nat) (hne : p ≠ [])
    (hlen : p.length ≤ DELL_K2_EC_HID_DATA_PAGE_SZ) :
    page_aligned p = p ++ List.replicate (DELL_K2_EC_HID_DATA_PAGE_SZ - p.length) 0 ∧
    (page_aligned p).length = DELL_K2_EC_HID_DATA_PAGE_SZ := by
  obtain ⟨m, hm⟩ : ∃ m, p.length = m + 1 :=
    ⟨p.length - 1, by have := List.length_pos.mpr hne; omega⟩
  have hdrop : cPageBufInit.drop p.length =
      List.replicate (DELL_K2_EC_HID_DATA_PAGE_SZ - p.length) 0 := by
    rw [hm]
    unfold cPageBufInit
    rw [List.drop_succ_cons, drop_replicate_nat]
    congr 1
    unfold DELL_K2_EC_HID_DATA_PAGE_SZ
    omega
  have h1 : page_aligned p =
      p ++ List.replicate (DELL_K2_EC_HID_DATA_PAGE_SZ - p.length) 0 := by
    unfold page_aligned
    rw [hdrop]
  refine ⟨h1, ?_⟩
  rw [h1, List.length_append, List.length_replicate]
  omega

theorem write_chunks_cons (fw_sz dev_type dev_identifier : Nat) (acks : Nat → Nat)
    (chk : List Nat) (rest : List (List Nat)) (i : Nat) :
    fu_dell_k2_ec_write_chunks fw_sz dev_type dev_identifier acks (chk :: rest) i =
      if acks i = DELL_K2_EC_RESP_TO_CHUNK_UPDATE_COMPLETE ∨
          acks i = DELL_K2_EC_RESP_TO_CHUNK_SEND_NEXT_CHUNK then
        (fu_dell_k2_ec_chunk_pages chk fw_sz dev_type dev_identifier ++
            (fu_dell_k2_ec_write_chunks fw_sz dev_type dev_identifier acks rest (i + 1)).1,
          (fu_dell_k2_ec_write_chunks fw_sz dev_type dev_identifier acks rest (i + 1)).2)
      else
        (fu_dell_k2_ec_chunk_pages chk fw_sz dev_type dev_identifier,
          Except.error (i, acks i)) := rfl

theorem write_chunks_sent_mem (fw_sz dev_type dev_identifier : Nat) (acks : Nat → Nat) :
    ∀ cl i s,
      s ∈ (fu_dell_k2_ec_write_chunks fw_sz dev_type dev_identifier acks cl i).1 →
      ∃ chk ∈ cl, s ∈ fu_dell_k2_ec_chunk_pages chk fw_sz dev_type dev_identifier := by
  intro cl
  induction cl with
  | nil =>
    intro i s hs
    exact absurd hs (by simp [fu_dell_k2_ec_write_chunks])
  | cons chk rest ih =>
    intro i s hs
    rw [write_chunks_cons] at hs
    by_cases hack : acks i = DELL_K2_EC_RESP_TO_CHUNK_UPDATE_COMPLETE ∨
        acks i = DELL_K2_EC_RESP_TO_CHUNK_SEND_NEXT_CHUNK
    · rw [if_pos hack] at hs
      rcases List.mem_append.mp hs with h | h
      · exact ⟨chk, List.mem_cons_self chk rest, h⟩
      · obtain ⟨c, hc, hp⟩ := ih (i + 1) s h
        exact ⟨c, List.mem_cons_of_mem chk hc, hp⟩
    · rw [if_neg hack] at hs
      exact ⟨chk, List.mem_cons_self chk rest, hs⟩

theorem chunk_pages_props (chk : List Nat) (fw_sz dev_type dev_identifier : Nat) :
    ∀ s ∈ fu_dell_k2_ec_chunk_pages chk fw_sz dev_type dev_identifier,
      s.length = DELL_K2_EC_HID_DATA_PAGE_SZ := by
  intro s hs
  rw [fu_dell_k2_ec_chunk_pages] at hs
  rcases List.mem_map.mp hs with ⟨p, hp, rfl⟩
  have hprops := fu_chunk_array_mem _ DELL_K2_EC_HID_DATA_PAGE_SZ (by decide) p hp
  exact (page_aligned_spec p hprops.1 hprops.2).2

theorem write_chunks_all_good (fw_sz dev_type dev_identifier : Nat) (acks : Nat → Nat) :
    ∀ cl i,
      (∀ k, k < cl.length →
        acks (i + k) = DELL_K2_EC_RESP_TO_CHUNK_UPDATE_COMPLETE ∨
        acks (i + k) = DELL_K2_EC_RESP_TO_CHUNK_SEND_NEXT_CHUNK) →
      fu_dell_k2_ec_write_chunks fw_sz dev_type dev_identifier acks cl i =
        ((cl.map (fun chk =>
            fu_dell_k2_ec_chunk_pages chk fw_sz dev_type dev_identifier)).flatten,
          Except.ok ()) := by
  intro cl
  induction cl with
  | nil =>
    intro i _
    rfl
  | cons chk rest ih =>
    intro i h
    have h0 : acks i = DELL_K2_EC_RESP_TO_CHUNK_UPDATE_COMPLETE ∨
        acks i = DELL_K2_EC_RESP_TO_CHUNK_SEND_NEXT_CHUNK := by
      simpa using h 0 (by simp)
    rw [write_chunks_cons, if_pos h0,
      ih (i + 1) (fun k hk => by
        have h2 := h (k + 1) (by simp only [List.length_cons]; omega)
        have h3 : i + 1 + k = i + (k + 1) := by omega
        rw [h3]
        exact h2)]
    simp

theorem write_chunks_first_bad (fw_sz dev_type dev_identifier : Nat) (acks : Nat → Nat) :
    ∀ cl i j, j < cl.length →
      (∀ k, k < j →
        acks (i + k) = DELL_K2_EC_RESP_TO_CHUNK_UPDATE_COMPLETE ∨
        acks (i + k) = DELL_K2_EC_RESP_TO_CHUNK_SEND_NEXT_CHUNK) →
      ¬(acks (i + j) = DELL_K2_EC_RESP_TO_CHUNK_UPDATE_COMPLETE ∨
        acks (i + j) = DELL_K2_EC_RESP_TO_CHUNK_SEND_NEXT_CHUNK) →
      fu_dell_k2_ec_write_chunks fw_sz dev_type dev_identifier acks cl i =
        (((cl.take (j + 1)).map (fun chk =>
            fu_dell_k2_ec_chunk_pages chk fw_sz dev_type dev_identifier)).flatten,
          Except.error (i + j, acks (i + j))) := by
  intro cl
  induction cl with
  | nil =>
    intro i j hj
    exact absurd hj (by simp)
  | cons chk rest ih =>
    intro i j hj hgood hbad
    cases j with
    | zero =>
      have hb : ¬(acks i = DELL_K2_EC_RESP_TO_CHUNK_UPDATE_COMPLETE ∨
          acks i = DELL_K2_EC_RESP_TO_CHUNK_SEND_NEXT_CHUNK) := by
        simpa using hbad
      rw [write_chunks_cons, if_neg hb]
      simp
    | succ n =>
      have h0 : acks i = DELL_K2_EC_RESP_TO_CHUNK_UPDATE_COMPLETE ∨
          acks i = DELL_K2_EC_RESP_TO_CHUNK_SEND_NEXT_CHUNK := by
        simpa using hgood 0 (by omega)
      have hsh : i + 1 + n = i + (n + 1) := by omega
      rw [write_chunks_cons, if_pos h0,
        ih (i + 1) n (by simpa using hj)
          (fun k hk => by
            have h2 := hgood (k + 1) (by omega)
            have h3 : i + 1 + k = i + (k + 1) := by omega
            rw [h3]
            exact h2)
          (by
            rw [hsh]
            exact hbad)]
      simp only [List.take_succ_cons, List.map_cons, List.flatten_cons, hsh]

/-- C1: for a payload of length L > 0 and a device class with chunk size
C the engine produces exactly ceil(L/C) chunks whose concatenation is the
payload (no byte lost or duplicated), and the pages generated for each
chunk carry exactly the transfer header followed by that chunk's bytes,
so the payload bytes carried per chunk sum exactly to the chunk's byte
length. -/
theorem claim_C1_chunking (fw : List Nat) (dev_type dev_identifier : Nat)
    (hL : 0 < fw.length) :
    (fu_dell_k2_ec_fw_chunks fw dev_type).length =
      (fw.length + fu_dell_k2_ec_get_chunk_size dev_type - 1) /
        fu_dell_k2_ec_get_chunk_size dev_type ∧
    0 < (fu_dell_k2_ec_fw_chunks fw dev_type).length ∧
    (fu_dell_k2_ec_fw_chunks fw dev_type).flatten = fw ∧
    (∀ chk ∈ fu_dell_k2_ec_fw_chunks fw dev_type,
      (fu_chunk_array_new_from_bytes
          (fu_dell_k2_ec_hid_fwup_pkg_new chk fw.length dev_type dev_identifier)
          DELL_K2_EC_HID_DATA_PAGE_SZ).flatten =
        fu_dell_k2_ec_hid_fwup_hdr fw.length dev_type dev_identifier ++ chk ∧
      ((fu_chunk_array_new_from_bytes
          (fu_dell_k2_ec_hid_fwup_pkg_new chk fw.length dev_type dev_identifier)
          DELL_K2_EC_HID_DATA_PAGE_SZ).flatten).length =
        (fu_dell_k2_ec_hid_fwup_hdr fw.length dev_type dev_identifier).length +
          chk.length) := by
  have hc := chunk_size_pos dev_type
  refine ⟨?_, ?_, ?_, ?_⟩
  · rw [fu_dell_k2_ec_fw_chunks]
    exact fu_chunk_array_length fw _ hc
  · rw [fu_dell_k2_ec_fw_chunks, fu_chunk_array_length fw _ hc]
    exact Nat.div_pos (by omega) hc
  · rw [fu_dell_k2_ec_fw_chunks]
    exact fu_chunk_array_flatten fw _ hc
  · intro chk _
    have hjoin := fu_chunk_array_flatten
      (fu_dell_k2_ec_hid_fwup_pkg_new chk fw.length dev_type dev_identifier)
      DELL_K2_EC_HID_DATA_PAGE_SZ (by decide)
    have h1 : (fu_chunk_array_new_from_bytes
        (fu_dell_k2_ec_hid_fwup_pkg_new chk fw.length dev_type dev_identifier)
        DELL_K2_EC_HID_DATA_PAGE_SZ).flatten =
        fu_dell_k2_ec_hid_fwup_hdr fw.length dev_type dev_identifier ++ chk := by
      simpa [fu_dell_k2_ec_hid_fwup_pkg_new] using hjoin
    refine ⟨h1, ?_⟩
    rw [h1, List.length_append]

/-- Witness for C1 on a concrete 3-byte payload to the main EC class. -/
theorem claim_C1_chunking_witness :
    (fu_dell_k2_ec_fw_chunks [1, 2, 3] DELL_K2_EC_DEV_TYPE_MAIN_EC).length =
      ((3:Nat) + fu_dell_k2_ec_get_chunk_size DELL_K2_EC_DEV_TYPE_MAIN_EC - 1) /
        fu_dell_k2_ec_get_chunk_size DELL_K2_EC_DEV_TYPE_MAIN_EC ∧
    0 < (fu_dell_k2_ec_fw_chunks [1, 2, 3] DELL_K2_EC_DEV_TYPE_MAIN_EC).length ∧
    (fu_dell_k2_ec_fw_chunks [1, 2, 3] DELL_K2_EC_DEV_TYPE_MAIN_EC).flatten = [1, 2, 3] ∧
    (∀ chk ∈ fu_dell_k2_ec_fw_chunks [1, 2, 3] DELL_K2_EC_DEV_TYPE_MAIN_EC,
      (fu_chunk_array_new_from_bytes
          (fu_dell_k2_ec_hid_fwup_pkg_new chk 3 DELL_K2_EC_DEV_TYPE_MAIN_EC 0)
          DELL_K2_EC_HID_DATA_PAGE_SZ).flatten =
        fu_dell_k2_ec_hid_fwup_hdr 3 DELL_K2_EC_DEV_TYPE_MAIN_EC 0 ++ chk ∧
      ((fu_chunk_array_new_from_bytes
          (fu_dell_k2_ec_hid_fwup_pkg_new chk 3 DELL_K2_EC_DEV_TYPE_MAIN_EC 0)
          DELL_K2_EC_HID_DATA_PAGE_SZ).flatten).length =
        (fu_dell_k2_ec_hid_fwup_hdr 3 DELL_K2_EC_DEV_TYPE_MAIN_EC 0).length +
          chk.length) :=
  claim_C1_chunking [1, 2, 3] DELL_K2_EC_DEV_TYPE_MAIN_EC 0 (by decide)

/-- C8: every transport page is exactly the fixed HID report data size:
each chunk's framed buffer is sliced into fixed-size pages, a short final
page is padded with the initializer bytes (zeros past the page data), and
every buffer actually sent has exactly the full page size. -/
theorem claim_C8_page_alignment (fw : List Nat) (dev_type dev_identifier : Nat)
    (acks : Nat → Nat) :
    (∀ chk ∈ fu_dell_k2_ec_fw_chunks fw dev_type,
      ∀ p ∈ fu_chunk_array_new_from_bytes
          (fu_dell_k2_ec_hid_fwup_pkg_new chk fw.length dev_type dev_identifier)
          DELL_K2_EC_HID_DATA_PAGE_SZ,
        page_aligned p = p ++ List.replicate (DELL_K2_EC_HID_DATA_PAGE_SZ - p.length) 0 ∧
        (page_aligned p).length = DELL_K2_EC_HID_DATA_PAGE_SZ) ∧
    (∀ s ∈ (fu_dell_k2_ec_write_firmware_helper fw dev_type dev_identifier acks).1,
      s.length = DELL_K2_EC_HID_DATA_PAGE_SZ) := by
  constructor
  · intro chk _ p hp
    have hprops := fu_chunk_array_mem _ DELL_K2_EC_HID_DATA_PAGE_SZ (by decide) p hp
    exact page_aligned_spec p hprops.1 hprops.2
  · intro s hs
    rw [fu_dell_k2_ec_write_firmware_helper] at hs
    obtain ⟨chk, _, hp⟩ := write_chunks_sent_mem fw.length dev_type dev_identifier acks _ 0 s hs
    exact chunk_pages_props chk fw.length dev_type dev_identifier s hp

/-- Witness for C8 on a concrete 1-byte payload to the network
controller class. -/
theorem claim_C8_page_alignment_witness :
    (∀ chk ∈ fu_dell_k2_ec_fw_chunks [7] DELL_K2_EC_DEV_TYPE_LAN,
      ∀ p ∈ fu_chunk_array_new_from_bytes
          (fu_dell_k2_ec_hid_fwup_pkg_new chk 1 DELL_K2_EC_DEV_TYPE_LAN 1)
          DELL_K2_EC_HID_DATA_PAGE_SZ,
        page_aligned p = p ++ List.replicate (DELL_K2_EC_HID_DATA_PAGE_SZ - p.length) 0 ∧
        (page_aligned p).length = DELL_K2_EC_HID_DATA_PAGE_SZ) ∧
    (∀ s ∈ (fu_dell_k2_ec_write_firmware_helper [7] DELL_K2_EC_DEV_TYPE_LAN 1
        (fun _ => 1)).1,
      s.length = DELL_K2_EC_HID_DATA_PAGE_SZ) :=
  claim_C8_page_alignment [7] DELL_K2_EC_DEV_TYPE_LAN 1 (fun _ => 1)

/-- C2: a chunk acknowledgment of `UpdateComplete` or `SendNextChunk`
lets the transfer proceed (success after the last chunk); any other code
(the defined `UpdateFailed` code is such a code) fails the transfer
immediately with an error carrying the current chunk index and the
response code, and no page of any later chunk is sent. -/
theorem claim_C2_ack_handling (fw : List Nat) (dev_type dev_identifier : Nat)
    (acks : Nat → Nat) :
    (DELL_K2_EC_RESP_TO_CHUNK_UPDATE_FAILED ≠ DELL_K2_EC_RESP_TO_CHUNK_UPDATE_COMPLETE ∧
      DELL_K2_EC_RESP_TO_CHUNK_UPDATE_FAILED ≠ DELL_K2_EC_RESP_TO_CHUNK_SEND_NEXT_CHUNK) ∧
    ((∀ k, k < (fu_dell_k2_ec_fw_chunks fw dev_type).length →
        acks k = DELL_K2_EC_RESP_TO_CHUNK_UPDATE_COMPLETE ∨
        acks k = DELL_K2_EC_RESP_TO_CHUNK_SEND_NEXT_CHUNK) →
      (fu_dell_k2_ec_write_firmware_helper fw dev_type dev_identifier acks).2 =
        Except.ok ()) ∧
    (∀ j, j < (fu_dell_k2_ec_fw_chunks fw dev_type).length →
      (∀ k, k < j →
        acks k = DELL_K2_EC_RESP_TO_CHUNK_UPDATE_COMPLETE ∨
        acks k = DELL_K2_EC_RESP_TO_CHUNK_SEND_NEXT_CHUNK) →
      ¬(acks j = DELL_K2_EC_RESP_TO_CHUNK_UPDATE_COMPLETE ∨
        acks j = DELL_K2_EC_RESP_TO_CHUNK_SEND_NEXT_CHUNK) →
      fu_dell_k2_ec_write_firmware_helper fw dev_type dev_identifier acks =
        ((((fu_dell_k2_ec_fw_chunks fw dev_type).take (j + 1)).map (fun chk =>
            fu_dell_k2_ec_chunk_pages chk fw.length dev_type dev_identifier)).flatten,
          Except.error (j, acks j))) := by
  refine ⟨by decide, ?_, ?_⟩
  · intro h
    rw [fu_dell_k2_ec_write_firmware_helper,
      write_chunks_all_good fw.length dev_type dev_identifier acks _ 0
        (fun k hk => by simpa using h k hk)]
  · intro j hj hgood hbad
    have h := write_chunks_first_bad fw.length dev_type dev_identifier acks
      (fu_dell_k2_ec_fw_chunks fw dev_type) 0 j hj
      (fun k hk => by simpa using hgood k hk)
      (by simpa using hbad)
    rw [show (0:Nat) + j = j by omega] at h
    exact h

/-- Witness for C2: a 2-byte payload to the main EC forms one chunk and a
response code 3 (`UpdateFailed`) aborts at chunk 0 with that code. -/
theorem claim_C2_ack_handling_witness :
    fu_dell_k2_ec_write_firmware_helper [1, 2] DELL_K2_EC_DEV_TYPE_MAIN_EC 0
        (fun _ => 3) =
      ((((fu_dell_k2_ec_fw_chunks [1, 2] DELL_K2_EC_DEV_TYPE_MAIN_EC).take 1).map
          (fun chk => fu_dell_k2_ec_chunk_pages chk 2 DELL_K2_EC_DEV_TYPE_MAIN_EC 0)).flatten,
        Except.error (0, 3)) :=
  (claim_C2_ack_handling [1, 2] DELL_K2_EC_DEV_TYPE_MAIN_EC 0 (fun _ => 3)).2.2 0
    (by decide) (fun k hk => absurd hk (by omega)) (by decide)
